import Mathlib

/-
Verification of the Matchmaking & Match Lifecycle Engine of a battleship
game service. The definitions below are shallow embeddings of the
TypeScript source: `MatchTerminatedEmitter` and its static helpers
(`getTotalShotsFired`, `getTotalShipsDestroyed`, `isShipDestroyed`),
the user statistics updates (`addMatchStats`, `updateUserStats`), the
termination event payload (`MatchTerminatedData`), and the queue-pairing
scheduler tick. Machine numbers are modelled as `Int` (statistics) or
`Nat` (grid coordinates, counters); fallible code returns `Except`.
-/

namespace Battleship

/-- Grid coordinate pair, mirroring the `GridCoordinates` model
(`row`, `col` integer fields). -/
structure GridCoordinates where
  row : Nat
  col : Nat
deriving DecidableEq, Repr

/-- A ship, mirroring the `Ship` model: the list of cells it occupies. -/
structure Ship where
  coordinates : List GridCoordinates
deriving DecidableEq, Repr

/-- One player's board, mirroring `BattleshipGrid`: its ships and the
sequence of shots it has received. -/
structure BattleshipGrid where
  ships : List Ship
  shotsReceived : List GridCoordinates
deriving DecidableEq, Repr

/-- One side of a match (`MatchPlayerSide`): that player's grid. -/
structure MatchPlayerSide where
  grid : BattleshipGrid
deriving DecidableEq, Repr

/-- The match record as read by the termination emitter (`MatchDocument`):
the two players' sides. -/
structure MatchDocument where
  player1 : MatchPlayerSide
  player2 : MatchPlayerSide
deriving DecidableEq, Repr

/-- Embedding of `MatchTerminatedEmitter.getTotalShotsFired`: the sum of
the lengths of both grids' `shotsReceived` arrays. -/
def getTotalShotsFired (m : MatchDocument) : Nat :=
  m.player1.grid.shotsReceived.length + m.player2.grid.shotsReceived.length

/-- The `shipRows` array built inside `isShipDestroyed`: the rows of the
ship's coordinates. -/
def shipRows (ship : Ship) : List Nat :=
  ship.coordinates.map (fun c => c.row)

/-- The `shipCols` array built inside `isShipDestroyed`: the columns of the
ship's coordinates. -/
def shipCols (ship : Ship) : List Nat :=
  ship.coordinates.map (fun c => c.col)

/-- The hit test inside `isShipDestroyed`: a shot is counted as a hit on
the ship when its row appears among the ship's rows and its column appears
among the ship's columns (a bounding-box membership test, not an exact
coordinate membership test). -/
def isHitOnShip (ship : Ship) (shot : GridCoordinates) : Bool :=
  decide (shot.row ∈ shipRows ship ∧ shot.col ∈ shipCols ship)

/-- The `hits` counter accumulated by `isShipDestroyed` over
`shotsReceived`. -/
def hitCount (ship : Ship) (shotsReceived : List GridCoordinates) : Nat :=
  (shotsReceived.filter (isHitOnShip ship)).length

/-- The message of the error thrown by `isShipDestroyed` when the recorded
hits exceed the number of ship cells. -/
def shipHitsErrorMsg : String :=
  "Ship hits shouldn't be higher than the number of pieces of the ships"

/-- Embedding of `MatchTerminatedEmitter.isShipDestroyed`: count the hits,
throw when they exceed the ship's cell count, otherwise report destroyed
exactly when the cell count equals the hit count. -/
def isShipDestroyed (ship : Ship) (shotsReceived : List GridCoordinates) :
    Except String Bool :=
  let hits := hitCount ship shotsReceived
  if hits > ship.coordinates.length then
    Except.error shipHitsErrorMsg
  else
    Except.ok (ship.coordinates.length == hits)

/-- The per-grid loop of `getTotalShipsDestroyed`: fold over the grid's
ships, counting the destroyed ones; a throw from `isShipDestroyed` aborts
the whole computation. -/
def countDestroyedShips (ships : List Ship) (shotsReceived : List GridCoordinates) :
    Except String Nat :=
  match ships with
  | [] => Except.ok 0
  | ship :: rest => do
    let destroyed ← isShipDestroyed ship shotsReceived
    let n ← countDestroyedShips rest shotsReceived
    pure (if destroyed then n + 1 else n)

/-- Embedding of `MatchTerminatedEmitter.getTotalShipsDestroyed`: the
destroyed-ship count accumulated over both players' grids. -/
def getTotalShipsDestroyed (m : MatchDocument) : Except String Nat := do
  let n1 ← countDestroyedShips m.player1.grid.ships m.player1.grid.shotsReceived
  let n2 ← countDestroyedShips m.player2.grid.ships m.player2.grid.shotsReceived
  pure (n1 + n2)

/-- The `MatchStatsUpdate` object assembled by `MatchTerminatedEmitter.emit`. -/
structure MatchStatsUpdate where
  winner : String
  endTime : Nat
  totalShots : Nat
  shipsDestroyed : Nat
deriving DecidableEq, Repr

/-- The statistics-assembly step of `MatchTerminatedEmitter.emit` (lines
building `statsUpdate`): it computes both aggregate statistics; a throw
from the destroyed-ship computation propagates. -/
def buildMatchStatsUpdate (winnerId : String) (endTime : Nat) (m : MatchDocument) :
    Except String MatchStatsUpdate := do
  let destroyed ← getTotalShipsDestroyed m
  pure { winner := winnerId, endTime := endTime,
         totalShots := getTotalShotsFired m, shipsDestroyed := destroyed }

/-- Specification-side hit count: the number of entries of `shotsReceived`
that are actual coordinates of the ship. -/
def specHitCount (ship : Ship) (shotsReceived : List GridCoordinates) : Nat :=
  (shotsReceived.filter (fun s => decide (s ∈ ship.coordinates))).length

/-- Specification-side destruction test: a ship of length L is destroyed
iff exactly L of the shots in `shotsReceived` hit it (a shot hits the ship
iff it is one of the ship's coordinates). -/
def specShipDestroyed (ship : Ship) (shotsReceived : List GridCoordinates) : Bool :=
  ship.coordinates.length == specHitCount ship shotsReceived

/-- Specification-side destroyed-ship count over both grids of a match. -/
def specShipsDestroyed (m : MatchDocument) : Nat :=
  (m.player1.grid.ships.filter
    (fun s => specShipDestroyed s m.player1.grid.shotsReceived)).length +
  (m.player2.grid.ships.filter
    (fun s => specShipDestroyed s m.player2.grid.shotsReceived)).length

/-- A list of naturals is a contiguous range: some permutation of
`a, a+1, ..., a+len-1`. -/
def IsContiguousRange (l : List Nat) : Prop :=
  ∃ a, l.Perm (List.range' a l.length)

/-- The grid invariant on a single ship: its coordinates are contiguous
and collinear — either all on one row with contiguous columns, or all on
one column with contiguous rows. -/
def IsShipLine (ship : Ship) : Prop :=
  ((∃ r, ∀ c ∈ ship.coordinates, c.row = r) ∧ IsContiguousRange (shipCols ship)) ∨
  ((∃ cl, ∀ c ∈ ship.coordinates, c.col = cl) ∧ IsContiguousRange (shipRows ship))

/-- The user statistics record (`UserStats` model): elo, top elo, wins,
losses and cumulative match totals. JavaScript numbers carrying these
fields are modelled as `Int`. -/
structure UserStats where
  elo : Int
  topElo : Int
  wins : Int
  losses : Int
  shipsDestroyed : Int
  totalShots : Int
  totalHits : Int
deriving DecidableEq, Repr

/-- A user document as far as the statistics operations see it: a username
and the embedded `stats` sub-document. -/
structure UserRecord where
  username : String
  stats : UserStats
deriving DecidableEq, Repr

/-- The elo delta awarded to the winner inside `addMatchStats`
(`newElo = didUserWin ? 30 : -20`). -/
def winDelta : Int := 30

/-- The elo delta applied to the loser inside `addMatchStats`. -/
def lossDelta : Int := -20

/-- Embedding of `addMatchStats` (user.ts): add the win/loss elo delta,
floor the resulting elo at zero, keep `topElo` as the running maximum,
bump the win or loss counter, and accumulate the match totals. -/
def addMatchStats (stats : UserStats) (newShipsDestroyed newShots newHits : Int)
    (didUserWin : Bool) : UserStats :=
  let newElo : Int := if didUserWin then winDelta else lossDelta
  let eloSum : Int := stats.elo + newElo
  let newUserElo : Int := if eloSum < 0 then 0 else eloSum
  { elo := newUserElo
    topElo := if newUserElo > stats.topElo then newUserElo else stats.topElo
    wins := stats.wins + (if didUserWin then 1 else 0)
    losses := stats.losses + (if didUserWin then 0 else 1)
    shipsDestroyed := stats.shipsDestroyed + newShipsDestroyed
    totalShots := stats.totalShots + newShots
    totalHits := stats.totalHits + newHits }

/-- One match result, as fed to `addMatchStats` for one user. -/
structure MatchResult where
  shipsDestroyed : Int
  shots : Int
  hits : Int
  won : Bool
deriving DecidableEq, Repr

/-- A sequence of match results applied to a user's statistics through the
termination path (`addMatchStats`), oldest first. -/
def applyMatchResults (stats : UserStats) (results : List MatchResult) : UserStats :=
  results.foldl
    (fun s r => addMatchStats s r.shipsDestroyed r.shots r.hits r.won) stats

/-- Embedding of `updateUserStats` (user.ts): overwrite every field of the
user's `stats` sub-document with the provided values, verbatim. -/
def updateUserStats (user : UserRecord) (updatedStats : UserStats) : UserRecord :=
  { user with
    stats := { topElo := updatedStats.topElo
               elo := updatedStats.elo
               wins := updatedStats.wins
               losses := updatedStats.losses
               shipsDestroyed := updatedStats.shipsDestroyed
               totalShots := updatedStats.totalShots
               totalHits := updatedStats.totalHits } }

/-- The reasons a match can terminate (`MatchTerminatedReason` enum), with
their string values. -/
inductive MatchTerminatedReason where
  | playerLeftTheGame
  | playerWon
deriving DecidableEq, Repr

/-- String value of each `MatchTerminatedReason` enum member. -/
def MatchTerminatedReason.text : MatchTerminatedReason → String
  | .playerLeftTheGame => "A player has left the game"
  | .playerWon => "A player has won the game"

/-- The payload of a match termination event (`MatchTerminatedData`):
exactly the winner's username and the termination reason. -/
structure MatchTerminatedData where
  winnerUsername : String
  reason : MatchTerminatedReason
deriving DecidableEq, Repr

/-- The room-scoped emitter state set up by the `MatchTerminatedEmitter`
constructor: the event name and the room (the match id rendered as a
string). -/
structure MatchTerminatedEmitter where
  eventName : String
  room : String
deriving DecidableEq, Repr

/-- Embedding of the `MatchTerminatedEmitter` constructor: the event name
is the literal string and the room is the match id. -/
def mkMatchTerminatedEmitter (matchId : String) : MatchTerminatedEmitter :=
  { eventName := "match-terminated", room := matchId }

/-- The environment of fallible collaborator calls made by
`MatchTerminatedEmitter.emit` inside its try block: loading the winner by
username, loading the match by id, and persisting the stats update. -/
structure TerminationEnv where
  loadWinner : Except String String
  loadMatch : Except String MatchDocument
  persistStats : MatchStatsUpdate → Except String Unit
  now : Nat

/-- The try block of `MatchTerminatedEmitter.emit`: load the winner, load
the match, assemble the `MatchStatsUpdate` (which can itself throw from
the destroyed-ship computation), and persist it. -/
def runStatsUpdate (env : TerminationEnv) : Except String MatchStatsUpdate := do
  let winnerId ← env.loadWinner
  let m ← env.loadMatch
  let u ← buildMatchStatsUpdate winnerId env.now m
  env.persistStats u
  pure u

/-- Observable outcome of one `emit` call: whether the stats update was
persisted, whether the catch branch logged an error, and whether the
termination broadcast (`super.emit`) was sent. -/
structure EmitOutcome where
  statsPersisted : Bool
  errorLogged : Bool
  broadcastSent : Bool
deriving DecidableEq, Repr

/-- Embedding of the control flow of `MatchTerminatedEmitter.emit`: the
stats-update step runs inside a try block whose catch logs the error; the
broadcast (`super.emit(data)`) is outside the try/catch and runs in every
case. -/
def emitTermination (env : TerminationEnv) : EmitOutcome :=
  match runStatsUpdate env with
  | Except.ok _ => { statsPersisted := true, errorLogged := false, broadcastSent := true }
  | Except.error _ => { statsPersisted := false, errorLogged := true, broadcastSent := true }

/-- Match lifecycle status (spec §3: AwaitingPlacement, InProgress,
Terminated). -/
inductive MatchStatus where
  | awaitingPlacement
  | inProgress
  | terminated
deriving DecidableEq, Repr

/-- Modelled from the spec: the match persistence module (`match.ts`, with
the match status field and `updateMatchStats`) is not under `src/`; per
the spec, a match record carries its lifecycle status and, once
Terminated, its write-once stats. -/
structure MatchRecord where
  status : MatchStatus
  stats : Option MatchStatsUpdate
deriving DecidableEq, Repr

/-- Modelled from the spec: "a second termination attempt on an
already-Terminated match is a no-op, not an error storm" — terminating a
match moves it to Terminated and records its stats, and does nothing on a
match that is already Terminated. -/
def terminateMatch (m : MatchRecord) (u : MatchStatsUpdate) : MatchRecord :=
  match m.status with
  | MatchStatus.terminated => m
  | _ => { status := MatchStatus.terminated, stats := some u }

/-- Modelled from the spec: the `MatchmakingEngine` module is not under
`src/` (only its tests and callers are); per the spec, one scheduler tick
drains the queue in FIFO order and pairs consecutive entries — index 0
with 1, 2 with 3, and so on — leaving the last entry queued when the
count is odd. Returns the created pairs and the remaining queue. -/
def pairQueue {α : Type} : List α → List (α × α) × List α
  | [] => ([], [])
  | [x] => ([], [x])
  | x :: y :: rest =>
    let r := pairQueue rest
    ((x, y) :: r.1, r.2)

/-- For a contiguous, collinear ship the bounding-box hit test of
`isShipDestroyed` coincides with exact membership among the ship's
coordinates. -/
lemma hit_iff_mem (ship : Ship) (h : IsShipLine ship) (s : GridCoordinates) :
    (s.row ∈ shipRows ship ∧ s.col ∈ shipCols ship) ↔ s ∈ ship.coordinates := by
  constructor
  · rintro ⟨hr, hc⟩
    obtain ⟨c1, hc1, hr1⟩ := List.mem_map.mp hr
    obtain ⟨c2, hc2, he2⟩ := List.mem_map.mp hc
    rcases h with ⟨⟨r, hrow⟩, _⟩ | ⟨⟨cl, hcol⟩, _⟩
    · have h1 : c1.row = r := hrow c1 hc1
      have h2 : c2.row = r := hrow c2 hc2
      have hs : s = c2 := by
        cases s
        cases c2
        cases c1
        simp_all
      exact hs ▸ hc2
    · have h1 : c1.col = cl := hcol c1 hc1
      have h2 : c2.col = cl := hcol c2 hc2
      have hs : s = c1 := by
        cases s
        cases c2
        cases c1
        simp_all
      exact hs ▸ hc1
  · intro hs
    exact ⟨List.mem_map.mpr ⟨s, hs, rfl⟩, List.mem_map.mpr ⟨s, hs, rfl⟩⟩

/-- Under the ship invariant, the hit predicate of the source equals the
specification-side membership predicate. -/
lemma isHitOnShip_eq (ship : Ship) (h : IsShipLine ship) (s : GridCoordinates) :
    isHitOnShip ship s = decide (s ∈ ship.coordinates) := by
  unfold isHitOnShip
  rw [decide_eq_decide]
  exact hit_iff_mem ship h s

/-- Under the ship invariant, the hit counter of the source equals the
specification-side hit count. -/
lemma hitCount_eq_specHitCount (ship : Ship) (h : IsShipLine ship)
    (shots : List GridCoordinates) :
    hitCount ship shots = specHitCount ship shots := by
  unfold hitCount specHitCount
  congr 1
  apply List.filter_congr
  intro a _
  exact isHitOnShip_eq ship h a

/-- With no duplicate shots, at most `length` distinct shots can lie on a
ship of `length` cells. -/
lemma specHitCount_le (ship : Ship) (shots : List GridCoordinates)
    (hnd : shots.Nodup) :
    specHitCount ship shots ≤ ship.coordinates.length := by
  unfold specHitCount
  have hsub : shots.filter (fun s => decide (s ∈ ship.coordinates)) ⊆ ship.coordinates := by
    intro a ha
    have hmem := List.mem_filter.mp ha
    simpa using hmem.2
  have hnodup : (shots.filter (fun s => decide (s ∈ ship.coordinates))).Nodup :=
    hnd.filter _
  exact (List.subperm_of_subset hnodup hsub).length_le

/-- Under the grid invariants, `isShipDestroyed` does not throw and agrees
with the specification-side destruction test. -/
lemma isShipDestroyed_eq_spec (ship : Ship) (h : IsShipLine ship)
    (shots : List GridCoordinates) (hnd : shots.Nodup) :
    isShipDestroyed ship shots = Except.ok (specShipDestroyed ship shots) := by
  unfold isShipDestroyed specShipDestroyed
  rw [hitCount_eq_specHitCount ship h shots]
  have hle := specHitCount_le ship shots hnd
  simp [Nat.not_lt.mpr hle]

/-- Under the grid invariants, the per-grid destroyed-ship loop returns
the count of ships passing the specification-side destruction test. -/
lemma countDestroyedShips_eq_spec (ships : List Ship)
    (shots : List GridCoordinates) (hline : ∀ s ∈ ships, IsShipLine s)
    (hnd : shots.Nodup) :
    countDestroyedShips ships shots =
      Except.ok (ships.filter (fun s => specShipDestroyed s shots)).length := by
  induction ships with
  | nil => rfl
  | cons ship rest ih =>
    have hship : IsShipLine ship := hline ship (List.mem_cons_self ship rest)
    have hrest : ∀ s ∈ rest, IsShipLine s := fun s hs =>
      hline s (List.mem_cons_of_mem ship hs)
    unfold countDestroyedShips
    rw [isShipDestroyed_eq_spec ship hship shots hnd, ih hrest]
    by_cases hd : specShipDestroyed ship shots
    · simp [hd, List.filter_cons, Nat.add_comm, Bind.bind, Except.bind, Pure.pure,
        Except.pure]
    · simp only [Bool.not_eq_true] at hd
      simp [hd, List.filter_cons, Bind.bind, Except.bind, Pure.pure, Except.pure]

/-- A list equal to another is a permutation of it. -/
lemma perm_of_eq {l l2 : List Nat} (h : l = l2) : l.Perm l2 := h ▸ List.Perm.refl l

/-- Example horizontal two-cell ship at row 0, columns 0 and 1. -/
def exampleShip : Ship :=
  { coordinates := [{ row := 0, col := 0 }, { row := 0, col := 1 }] }

/-- Example vertical three-cell ship at column 2, rows 3 to 5. -/
def exampleVShip : Ship :=
  { coordinates := [{ row := 3, col := 2 }, { row := 4, col := 2 }, { row := 5, col := 2 }] }

/-- Player1's example grid: the horizontal ship, fully hit, plus one
missed shot. -/
def exampleGrid1 : BattleshipGrid :=
  { ships := [exampleShip]
    shotsReceived := [{ row := 0, col := 0 }, { row := 0, col := 1 },
                      { row := 5, col := 5 }] }

/-- Player2's example grid: the vertical ship with a single hit received. -/
def exampleGrid2 : BattleshipGrid :=
  { ships := [exampleVShip]
    shotsReceived := [{ row := 3, col := 2 }] }

/-- The example match assembled from the two example grids. -/
def exampleMatch : MatchDocument :=
  { player1 := { grid := exampleGrid1 }, player2 := { grid := exampleGrid2 } }

/-- The horizontal example ship satisfies the contiguous-collinear invariant. -/
lemma exampleShip_line : IsShipLine exampleShip :=
  Or.inl ⟨⟨0, by decide⟩, ⟨0, perm_of_eq (by decide)⟩⟩

/-- The vertical example ship satisfies the contiguous-collinear invariant. -/
lemma exampleVShip_line : IsShipLine exampleVShip :=
  Or.inr ⟨⟨2, by decide⟩, ⟨3, perm_of_eq (by decide)⟩⟩

/-- Every ship of player1's example grid satisfies the invariant. -/
lemma exampleMatch_p1_line : ∀ s ∈ exampleMatch.player1.grid.ships, IsShipLine s := by
  intro s hs
  have hseq : s = exampleShip := by
    simpa [exampleMatch, exampleGrid1, exampleGrid2] using hs
  rw [hseq]
  exact exampleShip_line

/-- Every ship of player2's example grid satisfies the invariant. -/
lemma exampleMatch_p2_line : ∀ s ∈ exampleMatch.player2.grid.ships, IsShipLine s := by
  intro s hs
  have hseq : s = exampleVShip := by
    simpa [exampleMatch, exampleGrid1, exampleGrid2] using hs
  rw [hseq]
  exact exampleVShip_line

/-- Claim C1: at match termination, the `shipsDestroyed` statistic equals
the number of ships, over both players' grids, that are destroyed in the
specification sense — a ship of length L is destroyed iff exactly L of
the shots in that grid's `shotsReceived` are coordinates of the ship —
for every match whose grids satisfy the stated invariants (ships
contiguous and collinear, `shotsReceived` without duplicates). -/
theorem getTotalShipsDestroyed_eq_spec (m : MatchDocument)
    (h1 : ∀ s ∈ m.player1.grid.ships, IsShipLine s)
    (h2 : ∀ s ∈ m.player2.grid.ships, IsShipLine s)
    (hn1 : m.player1.grid.shotsReceived.Nodup)
    (hn2 : m.player2.grid.shotsReceived.Nodup) :
    getTotalShipsDestroyed m = Except.ok (specShipsDestroyed m) := by
  unfold getTotalShipsDestroyed specShipsDestroyed
  rw [countDestroyedShips_eq_spec _ _ h1 hn1, countDestroyedShips_eq_spec _ _ h2 hn2]
  rfl

/-- Witness for claim C1 on the example match: the invariants hold, the
source computation succeeds with the specification-side count, and that
count is 1. -/
theorem getTotalShipsDestroyed_eq_spec_witness :
    (∀ s ∈ exampleMatch.player1.grid.ships, IsShipLine s) ∧
    (∀ s ∈ exampleMatch.player2.grid.ships, IsShipLine s) ∧
    exampleMatch.player1.grid.shotsReceived.Nodup ∧
    exampleMatch.player2.grid.shotsReceived.Nodup ∧
    getTotalShipsDestroyed exampleMatch = Except.ok (specShipsDestroyed exampleMatch) ∧
    specShipsDestroyed exampleMatch = 1 :=
  ⟨exampleMatch_p1_line, exampleMatch_p2_line, by decide, by decide,
   getTotalShipsDestroyed_eq_spec exampleMatch exampleMatch_p1_line
     exampleMatch_p2_line (by decide) (by decide),
   by decide⟩

/-- Claim C2: whenever the termination statistics are assembled, the
`totalShots` statistic equals the length of player1's `shotsReceived`
plus the length of player2's `shotsReceived`. -/
theorem totalShots_eq_sum (w : String) (t : Nat) (m : MatchDocument)
    (u : MatchStatsUpdate) (h : buildMatchStatsUpdate w t m = Except.ok u) :
    u.totalShots =
      m.player1.grid.shotsReceived.length + m.player2.grid.shotsReceived.length := by
  unfold buildMatchStatsUpdate at h
  cases hg : getTotalShipsDestroyed m with
  | error e =>
    rw [hg] at h
    simp [Bind.bind, Except.bind] at h
  | ok n =>
    rw [hg] at h
    simp only [Bind.bind, Except.bind, Pure.pure, Except.pure, Except.ok.injEq] at h
    rw [← h]
    rfl

/-- Witness for claim C2 on the example match: the assembly succeeds and
reports 4 total shots, the sum of the two grids' shot counts. -/
theorem totalShots_eq_sum_witness :
    buildMatchStatsUpdate "w1" 0 exampleMatch =
      Except.ok { winner := "w1", endTime := 0, totalShots := 4, shipsDestroyed := 1 } ∧
    ({ winner := "w1", endTime := 0, totalShots := 4,
       shipsDestroyed := 1 : MatchStatsUpdate }).totalShots =
      exampleMatch.player1.grid.shotsReceived.length +
        exampleMatch.player2.grid.shotsReceived.length :=
  ⟨by rfl,
   totalShots_eq_sum "w1" 0 exampleMatch
     { winner := "w1", endTime := 0, totalShots := 4, shipsDestroyed := 1 } (by rfl)⟩

/-- Example single-cell ship used to exercise the assertion branch. -/
def tinyShip : Ship := { coordinates := [{ row := 0, col := 0 }] }

/-- Duplicate shots on the single cell, violating the no-duplicate
invariant and driving the recorded hits above the ship length. -/
def dupShots : List GridCoordinates :=
  [{ row := 0, col := 0 }, { row := 0, col := 0 }]

/-- Claim C8: if the recorded hits on a ship exceed its coordinate count,
`isShipDestroyed` aborts with the assertion error rather than returning a
value; and under the grid invariants (contiguous collinear ship, shots
without duplicates) the computation returns normally, so the error branch
is unreachable. -/
theorem isShipDestroyed_assertion (ship : Ship) (shots : List GridCoordinates) :
    (hitCount ship shots > ship.coordinates.length →
      isShipDestroyed ship shots = Except.error shipHitsErrorMsg) ∧
    (IsShipLine ship → shots.Nodup →
      ∃ b, isShipDestroyed ship shots = Except.ok b) := by
  constructor
  · intro hgt
    unfold isShipDestroyed
    simp [hgt]
  · intro hline hnd
    exact ⟨specShipDestroyed ship shots, isShipDestroyed_eq_spec ship hline shots hnd⟩

/-- Witness for claim C8: duplicate shots on the single-cell ship trip
the assertion, while the invariant-respecting example ship and shots
return normally. -/
theorem isShipDestroyed_assertion_witness :
    (hitCount tinyShip dupShots > tinyShip.coordinates.length ∧
      isShipDestroyed tinyShip dupShots = Except.error shipHitsErrorMsg) ∧
    (IsShipLine exampleShip ∧
      (exampleMatch.player1.grid.shotsReceived).Nodup ∧
      ∃ b, isShipDestroyed exampleShip exampleMatch.player1.grid.shotsReceived =
        Except.ok b) :=
  ⟨⟨by decide, (isShipDestroyed_assertion tinyShip dupShots).1 (by decide)⟩,
   ⟨exampleShip_line, by decide,
    (isShipDestroyed_assertion exampleShip exampleMatch.player1.grid.shotsReceived).2
      exampleShip_line (by decide)⟩⟩

/-- One `addMatchStats` update always leaves the elo non-negative and not
above the (freshly updated) top elo. -/
lemma addMatchStats_step (s : UserStats) (sd sh ht : Int) (w : Bool) :
    0 ≤ (addMatchStats s sd sh ht w).elo ∧
    (addMatchStats s sd sh ht w).elo ≤ (addMatchStats s sd sh ht w).topElo := by
  unfold addMatchStats
  constructor <;> dsimp only <;> split_ifs <;> omega

/-- Claim C4: over any sequence of match-result updates applied through
`addMatchStats`, the elo stays non-negative and the top elo stays a
running maximum of the elo (so it bounds the current elo), given that
both invariants held initially. -/
theorem applyMatchResults_elo_invariant (stats : UserStats)
    (results : List MatchResult) (h0 : 0 ≤ stats.elo)
    (h1 : stats.elo ≤ stats.topElo) :
    0 ≤ (applyMatchResults stats results).elo ∧
    (applyMatchResults stats results).elo ≤
      (applyMatchResults stats results).topElo := by
  induction results generalizing stats with
  | nil => exact ⟨h0, h1⟩
  | cons r rest ih =>
    have hstep := addMatchStats_step stats r.shipsDestroyed r.shots r.hits r.won
    unfold applyMatchResults
    rw [List.foldl_cons]
    exact ih _ hstep.1 hstep.2

/-- Example fresh user statistics, all zero. -/
def exampleStats : UserStats :=
  { elo := 0, topElo := 0, wins := 0, losses := 0, shipsDestroyed := 0,
    totalShots := 0, totalHits := 0 }

/-- Example sequence of two match results: a win then a loss. -/
def exampleResults : List MatchResult :=
  [{ shipsDestroyed := 1, shots := 3, hits := 1, won := true },
   { shipsDestroyed := 0, shots := 2, hits := 0, won := false }]

/-- Witness for claim C4 on a fresh user playing a win then a loss. -/
theorem applyMatchResults_elo_invariant_witness :
    0 ≤ exampleStats.elo ∧ exampleStats.elo ≤ exampleStats.topElo ∧
    (0 ≤ (applyMatchResults exampleStats exampleResults).elo ∧
      (applyMatchResults exampleStats exampleResults).elo ≤
        (applyMatchResults exampleStats exampleResults).topElo) :=
  ⟨by decide, by decide,
   applyMatchResults_elo_invariant exampleStats exampleResults (by decide) (by decide)⟩

/-- Claim C5: the termination stats update adds `winDelta` to the winner's
elo clamped at 0, keeps the winner's top elo as the running maximum, and
bumps the winner's wins by 1; it adds the negative `lossDelta` to the
loser's elo clamped at 0 and bumps the loser's losses by 1; for both it
accumulates the match's destroyed ships, shots and hits into the user
totals. -/
theorem addMatchStats_update_rules (s : UserStats) (sd sh ht : Int) :
    ((addMatchStats s sd sh ht true).elo = max (s.elo + winDelta) 0 ∧
      (addMatchStats s sd sh ht true).topElo =
        max (addMatchStats s sd sh ht true).elo s.topElo ∧
      (addMatchStats s sd sh ht true).wins = s.wins + 1 ∧
      (addMatchStats s sd sh ht true).losses = s.losses ∧
      (addMatchStats s sd sh ht true).shipsDestroyed = s.shipsDestroyed + sd ∧
      (addMatchStats s sd sh ht true).totalShots = s.totalShots + sh ∧
      (addMatchStats s sd sh ht true).totalHits = s.totalHits + ht) ∧
    (lossDelta < 0 ∧
      (addMatchStats s sd sh ht false).elo = max (s.elo + lossDelta) 0 ∧
      (addMatchStats s sd sh ht false).losses = s.losses + 1 ∧
      (addMatchStats s sd sh ht false).wins = s.wins ∧
      (addMatchStats s sd sh ht false).shipsDestroyed = s.shipsDestroyed + sd ∧
      (addMatchStats s sd sh ht false).totalShots = s.totalShots + sh ∧
      (addMatchStats s sd sh ht false).totalHits = s.totalHits + ht) := by
  refine ⟨⟨?_, ?_, ?_, ?_, ?_, ?_, ?_⟩, ⟨by decide, ?_, ?_, ?_, ?_, ?_, ?_⟩⟩ <;>
    unfold addMatchStats winDelta lossDelta <;> dsimp only <;>
    (try split_ifs) <;> (first | rfl | omega | simp_all)

/-- Claim C6: for every environment of collaborator outcomes, the
termination broadcast is sent; and whenever the stats-update step inside
the try block fails, the failure is logged, the stats are not persisted,
and the broadcast is still sent. -/
theorem emitTermination_always_broadcasts (env : TerminationEnv) :
    (emitTermination env).broadcastSent = true ∧
    (∀ msg, runStatsUpdate env = Except.error msg →
      (emitTermination env).errorLogged = true ∧
      (emitTermination env).statsPersisted = false) := by
  constructor
  · unfold emitTermination
    cases runStatsUpdate env <;> rfl
  · intro msg h
    unfold emitTermination
    rw [h]
    exact ⟨rfl, rfl⟩

/-- Environment in which loading the winner fails, as when
`getUserByUsername` rejects. -/
def failingEnv : TerminationEnv :=
  { loadWinner := Except.error "No user with that identifier"
    loadMatch := Except.ok exampleMatch
    persistStats := fun _ => Except.ok ()
    now := 0 }

/-- Witness for claim C6: with a failing winner lookup the stats update
fails, the failure is logged, nothing is persisted, and the broadcast is
still sent. -/
theorem emitTermination_always_broadcasts_witness :
    runStatsUpdate failingEnv = Except.error "No user with that identifier" ∧
    (emitTermination failingEnv).broadcastSent = true ∧
    (emitTermination failingEnv).errorLogged = true ∧
    (emitTermination failingEnv).statsPersisted = false :=
  ⟨rfl, (emitTermination_always_broadcasts failingEnv).1,
   ((emitTermination_always_broadcasts failingEnv).2 _ rfl).1,
   ((emitTermination_always_broadcasts failingEnv).2 _ rfl).2⟩

/-- Claim C7: termination is idempotent — terminating a match that is
already Terminated changes nothing (and raises no error), so a second
termination attempt on the same match is a no-op. -/
theorem terminateMatch_idempotent :
    (∀ (m : MatchRecord) (u : MatchStatsUpdate),
      m.status = MatchStatus.terminated → terminateMatch m u = m) ∧
    (∀ (m : MatchRecord) (u v : MatchStatsUpdate),
      terminateMatch (terminateMatch m u) v = terminateMatch m u) := by
  constructor
  · intro m u h
    cases m with
    | mk st stats => cases st <;> simp_all [terminateMatch]
  · intro m u v
    cases m with
    | mk st stats => cases st <;> rfl

/-- The stats update of the example match. -/
def doneUpdate : MatchStatsUpdate :=
  { winner := "w1", endTime := 0, totalShots := 4, shipsDestroyed := 1 }

/-- An already-Terminated match record. -/
def doneMatch : MatchRecord :=
  { status := MatchStatus.terminated, stats := some doneUpdate }

/-- Witness for claim C7 on an already-Terminated match record. -/
theorem terminateMatch_idempotent_witness :
    doneMatch.status = MatchStatus.terminated ∧
    terminateMatch doneMatch doneUpdate = doneMatch ∧
    terminateMatch (terminateMatch doneMatch doneUpdate) doneUpdate =
      terminateMatch doneMatch doneUpdate :=
  ⟨rfl, terminateMatch_idempotent.1 doneMatch doneUpdate rfl,
   terminateMatch_idempotent.2 doneMatch doneUpdate doneUpdate⟩

/-- Claim C9: every match-termination emitter is created under the event
name `match-terminated` scoped to the match's room; the payload type
carries exactly the two fields `winnerUsername` and `reason` (projecting
to that pair is a bijection); and the reason can only be the PlayerWon or
PlayerLeftTheGame enum member. -/
theorem matchTerminated_event_contract :
    (∀ matchId : String,
      (mkMatchTerminatedEmitter matchId).eventName = "match-terminated" ∧
      (mkMatchTerminatedEmitter matchId).room = matchId) ∧
    (∀ r : MatchTerminatedReason,
      r = MatchTerminatedReason.playerWon ∨
      r = MatchTerminatedReason.playerLeftTheGame) ∧
    Function.Bijective
      (fun d : MatchTerminatedData => (d.winnerUsername, d.reason)) := by
  refine ⟨fun i => ⟨rfl, rfl⟩, fun r => ?_, ?_, ?_⟩
  · cases r
    · right
      rfl
    · left
      rfl
  · intro a b h
    cases a
    cases b
    simpa using h
  · intro p
    exact ⟨⟨p.1, p.2⟩, rfl⟩

/-- Claim C10: `updateUserStats` stores the provided statistics verbatim
— the stored sub-document equals the input — and in particular there are
inputs after which the stored elo is negative and the stored top elo is
below the stored elo, so this path alone preserves neither invariant. -/
theorem updateUserStats_verbatim :
    (∀ (u : UserRecord) (s : UserStats), (updateUserStats u s).stats = s) ∧
    (∃ (u : UserRecord) (s : UserStats),
      (updateUserStats u s).stats.elo < 0 ∧
      (updateUserStats u s).stats.topElo < (updateUserStats u s).stats.elo) := by
  constructor
  · intro u s
    cases s
    rfl
  · refine ⟨{ username := "u", stats := exampleStats },
      { elo := -5, topElo := -10, wins := 0, losses := 0, shipsDestroyed := 0,
        totalShots := 0, totalHits := 0 }, by decide, by decide⟩

/-- Claim C3: one scheduler tick over a queue in FIFO enqueue order pairs
consecutive entries — flattening the created pairs and appending the
leftover restores the queue, so each user lands in exactly one match; the
number of matches is ⌊N/2⌋ (N/2 for even N, (N−1)/2 for odd N); the
leftover is empty for even N and exactly the last enqueued entry for odd
N; and 7 enqueued users yield exactly 3 matches with 1 user left
queued. -/
theorem pairQueue_fifo_fairness :
    (∀ (α : Type) (l : List α),
      ((pairQueue l).1.flatMap (fun p => [p.1, p.2])) ++ (pairQueue l).2 = l ∧
      (pairQueue l).1.length = l.length / 2 ∧
      (pairQueue l).2 =
        (if l.length % 2 = 0 then [] else l.getLast?.toList)) ∧
    pairQueue [0, 1, 2, 3, 4, 5, 6] = ([(0, 1), (2, 3), (4, 5)], [6]) := by
  constructor
  · intro α l
    induction l using pairQueue.induct with
    | case1 => exact ⟨rfl, by simp [pairQueue], by simp [pairQueue]⟩
    | case2 x => exact ⟨rfl, by simp [pairQueue], by simp [pairQueue]⟩
    | case3 x y rest ih =>
      obtain ⟨ihflat, ihlen, ihleft⟩ := ih
      refine ⟨?_, ?_, ?_⟩
      · simpa [pairQueue, List.flatMap] using ihflat
      · simp only [pairQueue, List.length_cons]
        omega
      · rcases rest with _ | ⟨z, rest2⟩
        · simp [pairQueue]
        · have hc : ((x :: y :: z :: rest2).length % 2 = 0) ↔
              ((z :: rest2).length % 2 = 0) := by
            simp only [List.length_cons]
            omega
          have hlast : (x :: y :: z :: rest2).getLast? = (z :: rest2).getLast? := by
            rw [List.getLast?_cons_cons, List.getLast?_cons_cons]
          simp only [pairQueue]
          rw [hlast]
          simp only [hc]
          exact ihleft
  · rfl

end Battleship
